import Mathlib

/-!
Verification of the elbattachment controller of provider-aws and of the
condition state machine described by the design document.

The Go controller in
pkg/controller/elasticloadbalancing/elbattachment/controller.go is embedded
shallowly: the kube client, the ELB client and the new-client function are
oracle functions carried in structures, Go error values are an inductive
type (errors.New and errors.Wrap), and each phase operation is a pure
function from the managed resource (plus its oracles) to the updated
resource together with its result and error.
-/

namespace ProviderAws

/-- Go error values: GoError.base models errors.New msg and GoError.wrap
models errors.Wrap err msg on a non-nil err. A nil Go error is modelled as
none at type Option GoError. -/
inductive GoError where
  | base : String → GoError
  | wrap : GoError → String → GoError
deriving DecidableEq, Repr

/-- errors.Wrap from github.com/pkg/errors: wrapping a nil error yields nil. -/
def wrapErr (e : Option GoError) (msg : String) : Option GoError :=
  match e with
  | none => none
  | some e => some (GoError.wrap e msg)

/-- resource.Ignore from crossplane-runtime: drops the error when the
predicate recognizes it, otherwise passes it through. -/
def ignoreErr (p : GoError → Bool) (e : Option GoError) : Option GoError :=
  match e with
  | none => none
  | some e => if p e then none else some e

/-- Error message constants of the elbattachment controller. -/
def errUnexpectedObject : String := "The managed resource is not an ELBAttachment resource"

def errCreateELBClient : String := "cannot create ELB client"

def errGetProvider : String := "cannot get provider"

def errGetProviderSecret : String := "cannot get provider secret"

def errDescribe : String := "failed to list instances for given ELB"

def errMultipleItems : String := "retrieved multiple ELBs for the given name"

def errCreate : String := "failed to register instance to ELB"

def errDelete : String := "failed to deregister instance from the ELB"

/-- A status condition: a (type, status, reason, message, lastTransitionTime)
tuple as in section 3 of the design document. -/
structure Condition where
  ctype : String
  cstatus : String
  reason : String
  message : String
  lastTransitionTime : Nat
deriving DecidableEq, Repr

/-- Modelled from the spec: replacement of a condition by a fresh condition
of the same type updates lastTransitionTime only if the status changed
(section 3 of the design document; the SetConditions implementation lives in
crossplane-runtime, outside this repository). -/
def mergeCondition (old c : Condition) : Condition :=
  if old.cstatus = c.cstatus then { c with lastTransitionTime := old.lastTransitionTime } else c

/-- Modelled from the spec: inserting a condition replaces the existing
condition of the same type (updating lastTransitionTime only if status
changed) and appends otherwise, so at most one condition per type is
retained (section 3 and section 4.4 of the design document; the
SetConditions implementation lives in crossplane-runtime, outside this
repository). -/
def setCondition : List Condition → Condition → List Condition
  | [], c => [c]
  | e :: rest, c =>
    if e.ctype = c.ctype then mergeCondition e c :: rest
    else e :: setCondition rest c

/-- Modelled from the spec: the Creating lifecycle condition, one of the
four recognized condition types of section 4.4, each call targeting its own
type slot. -/
def creatingCond (now : Nat) : Condition :=
  { ctype := "Creating", cstatus := "True", reason := "Creating", message := "", lastTransitionTime := now }

/-- Modelled from the spec: the Available lifecycle condition of section 4.4. -/
def availableCond (now : Nat) : Condition :=
  { ctype := "Available", cstatus := "True", reason := "Available", message := "", lastTransitionTime := now }

/-- Modelled from the spec: the Deleting lifecycle condition of section 4.4. -/
def deletingCond (now : Nat) : Condition :=
  { ctype := "Deleting", cstatus := "True", reason := "Deleting", message := "", lastTransitionTime := now }

/-- ELBAttachmentParameters: the desired-state fields the controller reads
(Spec.ForProvider.ELBName and Spec.ForProvider.InstanceID). -/
structure ELBAttachmentParameters where
  elbName : String
  instanceID : String
deriving DecidableEq, Repr

/-- The spec block of an ELBAttachment: the provider reference name read by
Connect and the ForProvider parameters. -/
structure ELBAttachmentSpec where
  providerRef : String
  forProvider : ELBAttachmentParameters
deriving DecidableEq, Repr

/-- The status block of an ELBAttachment: the conditions list and the
observed-state block status.atProvider, the latter modelled abstractly as a
string since the API type definitions are outside this repository. -/
structure ELBAttachmentStatus where
  conditions : List Condition
  atProvider : String
deriving DecidableEq, Repr

/-- An ELBAttachment managed resource. -/
structure ELBAttachment where
  spec : ELBAttachmentSpec
  status : ELBAttachmentStatus
deriving DecidableEq, Repr

/-- The resource.Managed input of each phase operation: either an
ELBAttachment or a value of any other type, the latter tagged by a string
so distinct wrong-typed inputs stay distinct. -/
inductive Managed where
  | elbAttachment : ELBAttachment → Managed
  | other : String → Managed
deriving DecidableEq, Repr

/-- An instance entry of a load balancer description. -/
structure LBInstance where
  instanceId : String
deriving DecidableEq, Repr

/-- One LoadBalancerDescription of a DescribeLoadBalancers response; the
controller only reads its Instances list. -/
structure LoadBalancerDescription where
  instances : List LBInstance
deriving DecidableEq, Repr

/-- The DescribeLoadBalancers response body. -/
structure DescribeLoadBalancersOutput where
  loadBalancerDescriptions : List LoadBalancerDescription
deriving DecidableEq, Repr

/-- The RegisterInstancesWithLoadBalancer response body; the controller
discards it. -/
structure RegisterInstancesOutput where
  instances : List LBInstance
deriving DecidableEq, Repr

/-- The elb.Client the external handle holds: oracle functions for
describe, register and deregister; register and deregister take the
instance id and the load balancer name of the request the controller
builds. -/
structure ELBClient where
  describeLoadBalancers : String → Except GoError DescribeLoadBalancersOutput
  registerInstances : String → String → Except GoError RegisterInstancesOutput
  deregisterInstances : String → String → Except GoError Unit

/-- The managed.ExternalObservation result of Observe; its Go zero value
has both fields false. -/
structure ExternalObservation where
  resourceExists : Bool := false
  resourceUpToDate : Bool := false
deriving DecidableEq, Repr

/-- The managed.ExternalCreation result of Create; its only field is the
connection-details map and the controller always returns the zero value. -/
structure ExternalCreation where
  connectionDetails : List (String × String) := []
deriving DecidableEq, Repr

/-- The managed.ExternalUpdate result of Update. -/
structure ExternalUpdate where
  connectionDetails : List (String × String) := []
deriving DecidableEq, Repr

/-- external.Observe of the elbattachment controller: type-assert the
input, describe the load balancer by name (a not-found error recognized by
the per-kind predicate is ignored, everything else is wrapped with
errDescribe), require exactly one description, then scan its instances for
the desired instance id; on a hit set the Available condition and report
exists and up to date. -/
def observe (isELBNotFound : GoError → Bool) (client : ELBClient) (now : Nat)
    (mgd : Managed) : Managed × ExternalObservation × Option GoError :=
  match mgd with
  | .other s => (.other s, {}, some (.base errUnexpectedObject))
  | .elbAttachment cr =>
    match client.describeLoadBalancers cr.spec.forProvider.elbName with
    | .error err =>
      (.elbAttachment cr, {}, wrapErr (ignoreErr isELBNotFound (some err)) errDescribe)
    | .ok response =>
      if response.loadBalancerDescriptions.length ≠ 1 then
        (.elbAttachment cr, {}, some (.base errMultipleItems))
      else
        let observed := response.loadBalancerDescriptions.headD { instances := [] }
        let inst := observed.instances.foldl
          (fun acc v => if v.instanceId = cr.spec.forProvider.instanceID then v.instanceId else acc) ""
        if inst = "" then
          (.elbAttachment cr, {}, none)
        else
          (.elbAttachment
            { cr with status :=
              { cr.status with conditions := setCondition cr.status.conditions (availableCond now) } },
           { resourceExists := true, resourceUpToDate := true }, none)

/-- external.Create of the elbattachment controller: type-assert the input,
set the Creating condition, issue the register call, discard its output and
return the zero ExternalCreation together with the register error wrapped
with errCreate. -/
def create (client : ELBClient) (now : Nat) (mgd : Managed) :
    Managed × ExternalCreation × Option GoError :=
  match mgd with
  | .other s => (.other s, {}, some (.base errUnexpectedObject))
  | .elbAttachment cr =>
    let cr' := { cr with status :=
      { cr.status with conditions := setCondition cr.status.conditions (creatingCond now) } }
    match client.registerInstances cr.spec.forProvider.instanceID cr.spec.forProvider.elbName with
    | .error err => (.elbAttachment cr', {}, some (GoError.wrap err errCreate))
    | .ok _ => (.elbAttachment cr', {}, none)

/-- external.Update of the elbattachment controller: returns the zero
ExternalUpdate and a nil error unconditionally, with no type assertion and
no external call. -/
def update (mgd : Managed) : Managed × ExternalUpdate × Option GoError :=
  (mgd, {}, none)

/-- external.Delete of the elbattachment controller: type-assert the input,
set the Deleting condition, issue the deregister call and return its error
with the per-kind not-found predicate applied by resource.Ignore and the
rest wrapped with errDelete. -/
def delete (isNotFound : GoError → Bool) (client : ELBClient) (now : Nat)
    (mgd : Managed) : Managed × Option GoError :=
  match mgd with
  | .other s => (.other s, some (.base errUnexpectedObject))
  | .elbAttachment cr =>
    let cr' := { cr with status :=
      { cr.status with conditions := setCondition cr.status.conditions (deletingCond now) } }
    match client.deregisterInstances cr.spec.forProvider.instanceID cr.spec.forProvider.elbName with
    | .error err => (.elbAttachment cr', wrapErr (ignoreErr isNotFound (some err)) errDelete)
    | .ok _ => (.elbAttachment cr', none)

/-- The two authentication modes of awsclients.AuthMethod used by Connect. -/
inductive AuthMethod where
  | usePodServiceAccount
  | useProviderSecret
deriving DecidableEq, Repr

/-- The credentials secret reference of a provider: namespace, name and key. -/
structure SecretKeySelector where
  ns : String
  name : String
  key : String
deriving DecidableEq, Repr

/-- The provider configuration fields Connect reads: region, the
UseServiceAccount flag (a nullable boolean read through aws.BoolValue) and
the optional credentials secret reference. -/
structure Provider where
  region : String
  useServiceAccount : Option Bool
  credentialsSecretRef : Option SecretKeySelector
deriving DecidableEq, Repr

/-- aws.BoolValue: a nil boolean pointer reads as false. -/
def boolValue : Option Bool → Bool
  | none => false
  | some b => b

/-- A kubernetes secret: its data map from key to bytes, bytes modelled as a
string. -/
structure Secret where
  data : List (String × String)
deriving DecidableEq, Repr

/-- Go map indexing with the zero value for a missing key. -/
def lookupD (l : List (String × String)) (k : String) : String :=
  match l.find? (fun p => p.1 == k) with
  | some p => p.2
  | none => ""

/-- The kube client reads Connect performs: fetch a provider by name and a
secret by namespace and name. -/
structure KubeClient where
  getProvider : String → Except GoError Provider
  getSecret : String → String → Except GoError Secret

/-- The connector: the kube client and the new-client function, the latter
returning a possibly-nil client together with a possibly-nil error as the
Go function does. -/
structure Connector where
  kube : KubeClient
  newClientFn : String → String → AuthMethod → Option ELBClient × Option GoError

/-- The external handle Connect builds; its client is nil when the
new-client function failed. -/
structure External where
  client : Option ELBClient

/-- connector.Connect of the elbattachment controller: type-assert the
input, fetch the provider (failure wrapped with errGetProvider); in
ambient-identity mode call the new-client function with empty credentials,
otherwise require a credentials secret reference (errGetProviderSecret when
nil), fetch the secret (failure wrapped with errGetProviderSecret) and call
the new-client function with the referenced secret bytes; either
new-client error is wrapped with errCreateELBClient and the handle is
returned alongside it. -/
def connect (c : Connector) (mgd : Managed) : Option External × Option GoError :=
  match mgd with
  | .other _ => (none, some (.base errUnexpectedObject))
  | .elbAttachment cr =>
    match c.kube.getProvider cr.spec.providerRef with
    | .error e => (none, some (.wrap e errGetProvider))
    | .ok p =>
      if boolValue p.useServiceAccount then
        let r := c.newClientFn "" p.region .usePodServiceAccount
        (some { client := r.1 }, wrapErr r.2 errCreateELBClient)
      else
        match p.credentialsSecretRef with
        | none => (none, some (.base errGetProviderSecret))
        | some ref =>
          match c.kube.getSecret ref.ns ref.name with
          | .error e => (none, some (.wrap e errGetProviderSecret))
          | .ok s =>
            let r := c.newClientFn (lookupD s.data ref.key) p.region .useProviderSecret
            (some { client := r.1 }, wrapErr r.2 errCreateELBClient)

/-- Modelled from the spec: error message of the iamgrouppolicyattachment
controller for a failed list of attached group policies; the controller
source is not under src, only its tests, which wrap a client error with
this constant. -/
def errGet : String := "cannot list attached group policies"

/-- The desired-state fields of an IAMGroupPolicyAttachment: an optional
group name and an optional policy ARN. -/
structure IAMGroupPolicyAttachmentSpec where
  providerRef : String
  groupName : Option String
  policyARN : Option String
deriving DecidableEq, Repr

/-- The status block of an IAMGroupPolicyAttachment: conditions and the
observed-state field AttachedPolicyARN. -/
structure IAMGroupPolicyAttachmentStatus where
  conditions : List Condition
  attachedPolicyARN : String
deriving DecidableEq, Repr

/-- An IAMGroupPolicyAttachment managed resource. -/
structure IAMGroupPolicyAttachment where
  spec : IAMGroupPolicyAttachmentSpec
  status : IAMGroupPolicyAttachmentStatus
deriving DecidableEq, Repr

/-- The ListAttachedGroupPolicies response body: the ARNs of the attached
policies. -/
structure ListAttachedGroupPoliciesOutput where
  attachedPolicies : List String
deriving DecidableEq, Repr

/-- The iam.GroupPolicyAttachmentClient used by the iamgrouppolicyattachment
controller: the list call keyed by group name. -/
structure GroupPolicyAttachmentClient where
  listAttachedGroupPolicies : String → Except GoError ListAttachedGroupPoliciesOutput

/-- aws.StringValue: a nil string pointer reads as the empty string. -/
def strValue : Option String → String
  | none => ""
  | some s => s

/-- Modelled from the spec: Observe of the iamgrouppolicyattachment
controller, whose controller source is not under src (only its tests). Per
section 8 Scenario A and B and section 4.3.3 of the design document and the
TestObserve cases: list the policies attached to the desired group (a list
error is wrapped with errGet); when the returned list contains the desired
policy ARN, set the Available condition, record the ARN as the
observed-state identity and report exists and up to date; otherwise report
a non-existing resource with a nil error and change nothing. -/
def iamObserve (client : GroupPolicyAttachmentClient) (now : Nat)
    (cr : IAMGroupPolicyAttachment) :
    IAMGroupPolicyAttachment × ExternalObservation × Option GoError :=
  match client.listAttachedGroupPolicies (strValue cr.spec.groupName) with
  | .error e => (cr, {}, some (.wrap e errGet))
  | .ok out =>
    if out.attachedPolicies.contains (strValue cr.spec.policyARN) then
      ({ cr with status :=
        { conditions := setCondition cr.status.conditions (availableCond now),
          attachedPolicyARN := strValue cr.spec.policyARN } },
       { resourceExists := true, resourceUpToDate := true }, none)
    else (cr, {}, none)

/-- The conditions carried by a managed value, empty for a wrong-typed one. -/
def managedConditions (m : Managed) : List Condition :=
  match m with
  | .elbAttachment cr => cr.status.conditions
  | .other _ => []

/-- The observed-state block carried by a managed value, empty for a
wrong-typed one. -/
def managedAtProvider (m : Managed) : String :=
  match m with
  | .elbAttachment cr => cr.status.atProvider
  | .other _ => ""

/-- A concrete ELBAttachment used to evaluate the phase operations. -/
def cr0 : ELBAttachment :=
  { spec := { providerRef := "aws-creds", forProvider := { elbName := "my-elb", instanceID := "i-1" } },
    status := { conditions := [], atProvider := "" } }

/-- A concrete client whose register call fails. -/
def registerFailClient : ELBClient :=
  { describeLoadBalancers := fun _ => .error (.base "x"),
    registerInstances := fun _ _ => .error (.base "boom"),
    deregisterInstances := fun _ _ => .ok () }

/-- A concrete client whose describe call fails with a not-found error. -/
def describeNotFoundClient : ELBClient :=
  { describeLoadBalancers := fun _ => .error (.base "notfound"),
    registerInstances := fun _ _ => .error (.base "x"),
    deregisterInstances := fun _ _ => .ok () }

/-- A concrete per-kind not-found predicate recognizing one error value. -/
def notFoundPred : GoError → Bool := fun e => decide (e = GoError.base "notfound")

/-- A concrete client whose deregister call fails with a not-found error. -/
def deregisterNotFoundClient : ELBClient :=
  { describeLoadBalancers := fun _ => .error (.base "x"),
    registerInstances := fun _ _ => .error (.base "x"),
    deregisterInstances := fun _ _ => .error (.base "notfound") }

/-- A concrete client whose describe call succeeds with an empty list of
load balancer descriptions. -/
def emptyDescribeClient : ELBClient :=
  { describeLoadBalancers := fun _ => .ok { loadBalancerDescriptions := [] },
    registerInstances := fun _ _ => .error (.base "x"),
    deregisterInstances := fun _ _ => .ok () }

/-- A concrete client whose register call succeeds and reports the
registered instance identity back. -/
def registerOkClient : ELBClient :=
  { describeLoadBalancers := fun _ => .error (.base "x"),
    registerInstances := fun _ _ => .ok { instances := [{ instanceId := "i-1" }] },
    deregisterInstances := fun _ _ => .ok () }

/-- A concrete provider in ambient-identity mode. -/
def ambientProvider : Provider :=
  { region := "us-east-1", useServiceAccount := some true, credentialsSecretRef := none }

/-- A concrete connector whose provider fetch succeeds in ambient mode but
whose new-client function fails. -/
def clientFailConnector : Connector :=
  { kube := { getProvider := fun _ => .ok ambientProvider,
              getSecret := fun _ _ => .error (.base "x") },
    newClientFn := fun _ _ _ => (none, some (.base "boom")) }

/-- A concrete connector whose provider fetch fails. -/
def providerFailConnector : Connector :=
  { kube := { getProvider := fun _ => .error (.base "boom"),
              getSecret := fun _ _ => .error (.base "x") },
    newClientFn := fun _ _ _ => (none, none) }

/-- A concrete group-policy client returning one attached policy ARN. -/
def scenarioAClient : GroupPolicyAttachmentClient :=
  { listAttachedGroupPolicies := fun _ => .ok { attachedPolicies := ["some arn"] } }

/-- The concrete group-policy-attachment resource of Scenario A. -/
def scenarioACr : IAMGroupPolicyAttachment :=
  { spec := { providerRef := "aws-creds", groupName := some "some group", policyARN := some "some arn" },
    status := { conditions := [], attachedPolicyARN := "" } }

/-- Replacing a condition keeps the type of the inserted condition. -/
theorem mergeCondition_ctype (old c : Condition) : (mergeCondition old c).ctype = c.ctype := by
  unfold mergeCondition
  split <;> rfl

/-- After setting a condition, a condition of its type is present. -/
theorem setCondition_any_self (conds : List Condition) (c : Condition) :
    (setCondition conds c).any (fun e => e.ctype == c.ctype) = true := by
  induction conds with
  | nil => simp [setCondition]
  | cons e rest ih =>
    by_cases h : e.ctype = c.ctype
    · simp [setCondition, h, mergeCondition_ctype]
    · simp [setCondition, h, ih]

/-- The list of condition types after setting a condition: unchanged when
the type was present, extended by the new type otherwise. -/
theorem setCondition_map_ctype (conds : List Condition) (c : Condition) :
    (setCondition conds c).map Condition.ctype =
      if conds.any (fun e => e.ctype == c.ctype) then conds.map Condition.ctype
      else conds.map Condition.ctype ++ [c.ctype] := by
  induction conds with
  | nil => simp [setCondition]
  | cons e rest ih =>
    by_cases h : e.ctype = c.ctype
    · simp [setCondition, h, mergeCondition_ctype]
    · simp only [setCondition, if_neg h, List.map_cons, List.any_cons, ih]
      by_cases hr : rest.any (fun e => e.ctype == c.ctype) = true
      · simp [h, hr]
      · simp [h, hr]

/-- Setting a condition preserves distinctness of the condition types. -/
theorem setCondition_nodup (conds : List Condition) (c : Condition)
    (h : (conds.map Condition.ctype).Nodup) :
    ((setCondition conds c).map Condition.ctype).Nodup := by
  rw [setCondition_map_ctype]
  split
  · exact h
  · next hany =>
    have hmem : c.ctype ∉ conds.map Condition.ctype := by
      intro hm
      rcases List.mem_map.mp hm with ⟨e, he, heq⟩
      exact hany (List.any_eq_true.mpr ⟨e, he, by simp [heq]⟩)
    simp [List.nodup_append, h, hmem]

/-- When the condition types are distinct, setting a condition leaves
exactly one condition of its type. -/
theorem setCondition_countP_self (conds : List Condition) (c : Condition)
    (h : (conds.map Condition.ctype).Nodup) :
    (setCondition conds c).countP (fun e => e.ctype == c.ctype) = 1 := by
  induction conds with
  | nil => simp [setCondition]
  | cons e rest ih =>
    have h2 : (rest.map Condition.ctype).Nodup := (List.nodup_cons.mp h).2
    by_cases hc : e.ctype = c.ctype
    · have h1 : e.ctype ∉ rest.map Condition.ctype := (List.nodup_cons.mp h).1
      have hz : rest.countP (fun x => x.ctype == c.ctype) = 0 := by
        apply List.countP_eq_zero.mpr
        intro a ha hx
        apply h1
        rw [hc, ← beq_iff_eq.mp hx]
        exact List.mem_map.mpr ⟨a, ha, rfl⟩
      simp [setCondition, hc, List.countP_cons, mergeCondition_ctype, hz]
    · simp [setCondition, hc, List.countP_cons, ih h2]

/-- Setting a condition does not change the count of conditions of any
other type. -/
theorem setCondition_countP_other (conds : List Condition) (c : Condition) (t : String)
    (ht : t ≠ c.ctype) :
    (setCondition conds c).countP (fun e => e.ctype == t) =
      conds.countP (fun e => e.ctype == t) := by
  induction conds with
  | nil => simp [setCondition, List.countP_cons, Ne.symm ht]
  | cons e rest ih =>
    by_cases hc : e.ctype = c.ctype
    · have hmc : ((mergeCondition e c).ctype == t) = (e.ctype == t) := by
        rw [mergeCondition_ctype, hc]
      simp [setCondition, hc, List.countP_cons, hmc]
    · simp [setCondition, hc, List.countP_cons, ih]

/-- The condition current for the type of a freshly set condition is the
new condition, merged with the replaced one when the type was present. -/
theorem setCondition_find_self (conds : List Condition) (c : Condition) :
    (setCondition conds c).find? (fun e => e.ctype == c.ctype) =
      some (match conds.find? (fun e => e.ctype == c.ctype) with
            | some old => mergeCondition old c
            | none => c) := by
  induction conds with
  | nil => simp [setCondition]
  | cons e rest ih =>
    by_cases hc : e.ctype = c.ctype
    · simp [setCondition, hc, List.find?_cons, mergeCondition_ctype]
    · simp [setCondition, List.find?_cons, hc, ih]

/-- Setting a condition does not change the condition current for any other
type. -/
theorem setCondition_find_other (conds : List Condition) (c : Condition) (t : String)
    (ht : t ≠ c.ctype) :
    (setCondition conds c).find? (fun e => e.ctype == t) =
      conds.find? (fun e => e.ctype == t) := by
  induction conds with
  | nil => simp [setCondition, List.find?_cons, Ne.symm ht]
  | cons e rest ih =>
    by_cases hc : e.ctype = c.ctype
    · have hmc : ((mergeCondition e c).ctype == t) = (e.ctype == t) := by
        rw [mergeCondition_ctype, hc]
      have hf : (c.ctype == t) = false := by simp [Ne.symm ht]
      simp [setCondition, hc, List.find?_cons, hmc, hf]
    · simp [setCondition, List.find?_cons, hc, ih]

/-- Setting a condition whose type is present replaces in place: the length
is unchanged. -/
theorem setCondition_length_of_any (conds : List Condition) (c : Condition)
    (h : conds.any (fun e => e.ctype == c.ctype) = true) :
    (setCondition conds c).length = conds.length := by
  induction conds with
  | nil => simp at h
  | cons e rest ih =>
    by_cases hc : e.ctype = c.ctype
    · simp [setCondition, hc]
    · have hr : rest.any (fun e => e.ctype == c.ctype) = true := by
        rcases List.any_eq_true.mp h with ⟨a, ha, hx⟩
        rcases List.mem_cons.mp ha with h1 | h1
        · exact absurd (beq_iff_eq.mp (h1 ▸ hx)) hc
        · exact List.any_eq_true.mpr ⟨a, h1, hx⟩
      simp [setCondition, hc, ih hr]

/-- Wrapping an error is nil exactly when the error is nil. -/
theorem wrapErr_eq_none_iff (e : Option GoError) (m : String) :
    wrapErr e m = none ↔ e = none := by
  cases e <;> simp [wrapErr]

/-- Claim C1: for every ELBAttachment, Create sets the Creating condition
before and regardless of the outcome of the external register call, so when
that call fails the error comes back wrapped with the create tag while the
conditions still contain Creating and the observed state is unchanged. -/
theorem create_error_keeps_creating (client : ELBClient) (now : Nat) (cr : ELBAttachment)
    (e : GoError)
    (h : client.registerInstances cr.spec.forProvider.instanceID cr.spec.forProvider.elbName
      = .error e) :
    (create client now (.elbAttachment cr)).2.2 = some (GoError.wrap e errCreate) ∧
    (managedConditions (create client now (.elbAttachment cr)).1).any
      (fun c => c.ctype == "Creating") = true ∧
    managedAtProvider (create client now (.elbAttachment cr)).1 = cr.status.atProvider := by
  refine ⟨by simp [create, h], ?_, by simp [create, h, managedAtProvider]⟩
  have hs := setCondition_any_self cr.status.conditions (creatingCond now)
  simp only [create, h, managedConditions]
  simpa [creatingCond] using hs

/-- Witness for claim C1 at a concrete resource and failing client. -/
theorem create_error_keeps_creating_witness :
    registerFailClient.registerInstances cr0.spec.forProvider.instanceID
        cr0.spec.forProvider.elbName = .error (.base "boom") ∧
    ((create registerFailClient 0 (.elbAttachment cr0)).2.2
        = some (GoError.wrap (.base "boom") errCreate) ∧
      (managedConditions (create registerFailClient 0 (.elbAttachment cr0)).1).any
        (fun c => c.ctype == "Creating") = true ∧
      managedAtProvider (create registerFailClient 0 (.elbAttachment cr0)).1
        = cr0.status.atProvider) :=
  ⟨rfl, create_error_keeps_creating registerFailClient 0 cr0 (.base "boom") rfl⟩

/-- Claim C2: for every ELBAttachment, a describe error recognized by the
per-kind not-found predicate makes Observe report a non-existing resource
with a nil error and leave the resource unchanged, while any other describe
error comes back wrapped with the observe tag. -/
theorem observe_notfound_reports_absent (p : GoError → Bool) (client : ELBClient)
    (now : Nat) (cr : ELBAttachment) (e : GoError)
    (h : client.describeLoadBalancers cr.spec.forProvider.elbName = .error e) :
    (p e = true → observe p client now (.elbAttachment cr) =
      (.elbAttachment cr, { resourceExists := false, resourceUpToDate := false }, none)) ∧
    (p e = false → observe p client now (.elbAttachment cr) =
      (.elbAttachment cr, { resourceExists := false, resourceUpToDate := false },
        some (GoError.wrap e errDescribe))) := by
  constructor <;> intro hp <;> simp [observe, h, ignoreErr, wrapErr, hp]

/-- Witness for claim C2 at a concrete resource, predicate and clients. -/
theorem observe_notfound_reports_absent_witness :
    (describeNotFoundClient.describeLoadBalancers cr0.spec.forProvider.elbName
        = .error (.base "notfound") ∧
      notFoundPred (.base "notfound") = true ∧
      observe notFoundPred describeNotFoundClient 0 (.elbAttachment cr0) =
        (.elbAttachment cr0, { resourceExists := false, resourceUpToDate := false }, none)) ∧
    (registerOkClient.describeLoadBalancers cr0.spec.forProvider.elbName
        = .error (.base "x") ∧
      notFoundPred (.base "x") = false ∧
      observe notFoundPred registerOkClient 0 (.elbAttachment cr0) =
        (.elbAttachment cr0, { resourceExists := false, resourceUpToDate := false },
          some (GoError.wrap (.base "x") errDescribe))) :=
  ⟨⟨rfl, rfl,
    (observe_notfound_reports_absent notFoundPred describeNotFoundClient 0 cr0
      (.base "notfound") rfl).1 rfl⟩,
   ⟨rfl, rfl,
    (observe_notfound_reports_absent notFoundPred registerOkClient 0 cr0
      (.base "x") rfl).2 rfl⟩⟩

/-- Claim C3: for every ELBAttachment, Delete sets the Deleting condition
before the deregister call, and a deregister error recognized by the
per-kind not-found predicate makes Delete succeed, so deleting an
already-absent external object is a no-op success. -/
theorem delete_notfound_is_noop_success (p : GoError → Bool) (client : ELBClient)
    (now : Nat) (cr : ELBAttachment) (e : GoError)
    (h1 : client.deregisterInstances cr.spec.forProvider.instanceID cr.spec.forProvider.elbName
      = .error e)
    (h2 : p e = true) :
    (managedConditions (delete p client now (.elbAttachment cr)).1).any
      (fun c => c.ctype == "Deleting") = true ∧
    (delete p client now (.elbAttachment cr)).2 = none := by
  refine ⟨?_, by simp [delete, h1, h2, ignoreErr, wrapErr]⟩
  have hs := setCondition_any_self cr.status.conditions (deletingCond now)
  simp only [delete, h1, managedConditions]
  simpa [deletingCond] using hs

/-- Witness for claim C3 at a concrete resource and already-absent external
object. -/
theorem delete_notfound_is_noop_success_witness :
    deregisterNotFoundClient.deregisterInstances cr0.spec.forProvider.instanceID
        cr0.spec.forProvider.elbName = .error (.base "notfound") ∧
    notFoundPred (.base "notfound") = true ∧
    ((managedConditions
        (delete notFoundPred deregisterNotFoundClient 0 (.elbAttachment cr0)).1).any
      (fun c => c.ctype == "Deleting") = true ∧
      (delete notFoundPred deregisterNotFoundClient 0 (.elbAttachment cr0)).2 = none) :=
  ⟨rfl, rfl,
   delete_notfound_is_noop_success notFoundPred deregisterNotFoundClient 0 cr0
     (.base "notfound") rfl rfl⟩

/-- Claim C9: for every input, including one of the wrong resource type,
Update returns the zero update result and a nil error and leaves the input
unchanged, with no type check and no external call. -/
theorem update_unconditional_noop (mgd : Managed) :
    update mgd = (mgd, {}, none) := rfl

/-- Claim C10: for every ELBAttachment, when the describe call succeeds but
the number of returned load balancer descriptions differs from one,
including zero, Observe returns the multiple-items error and the empty
observation. -/
theorem observe_non_single_description_errors (p : GoError → Bool) (client : ELBClient)
    (now : Nat) (cr : ELBAttachment) (out : DescribeLoadBalancersOutput)
    (h1 : client.describeLoadBalancers cr.spec.forProvider.elbName = .ok out)
    (h2 : out.loadBalancerDescriptions.length ≠ 1) :
    observe p client now (.elbAttachment cr) =
      (.elbAttachment cr, { resourceExists := false, resourceUpToDate := false },
        some (GoError.base errMultipleItems)) := by
  simp [observe, h1, h2]

/-- Witness for claim C10 at a concrete client returning an empty list. -/
theorem observe_non_single_description_errors_witness :
    emptyDescribeClient.describeLoadBalancers cr0.spec.forProvider.elbName
        = .ok { loadBalancerDescriptions := [] } ∧
    ([] : List LoadBalancerDescription).length ≠ 1 ∧
    observe notFoundPred emptyDescribeClient 0 (.elbAttachment cr0) =
      (.elbAttachment cr0, { resourceExists := false, resourceUpToDate := false },
        some (GoError.base errMultipleItems)) :=
  ⟨rfl, by decide,
   observe_non_single_description_errors notFoundPred emptyDescribeClient 0 cr0
     { loadBalancerDescriptions := [] } rfl (by decide)⟩

/-- Counterexample for claim C4: at a concrete resource and a register call
that succeeds and reports the registered instance identity back, Create
returns the zero creation result with an empty connection-details map and
leaves the observed state empty, so neither the result nor the resource
carries the identity the external system returned. -/
theorem create_discards_identity_cex :
    registerOkClient.registerInstances cr0.spec.forProvider.instanceID
        cr0.spec.forProvider.elbName = .ok { instances := [{ instanceId := "i-1" }] } ∧
    (create registerOkClient 0 (.elbAttachment cr0)).2.1 = ({} : ExternalCreation) ∧
    (create registerOkClient 0 (.elbAttachment cr0)).2.1.connectionDetails = [] ∧
    managedAtProvider (create registerOkClient 0 (.elbAttachment cr0)).1 = "" ∧
    "i-1" ≠ "" :=
  ⟨rfl, rfl, rfl, rfl, by decide⟩

/-- Claim C4 amended: for every ELBAttachment, when the external register
call succeeds Create returns the zero creation result and a nil error,
discarding the call output, and records no external identity: the observed
state is unchanged. -/
theorem create_success_returns_empty_result (client : ELBClient) (now : Nat)
    (cr : ELBAttachment) (out : RegisterInstancesOutput)
    (h : client.registerInstances cr.spec.forProvider.instanceID cr.spec.forProvider.elbName
      = .ok out) :
    (create client now (.elbAttachment cr)).2.1 = ({} : ExternalCreation) ∧
    (create client now (.elbAttachment cr)).2.2 = none ∧
    managedAtProvider (create client now (.elbAttachment cr)).1 = cr.status.atProvider := by
  refine ⟨by simp [create, h], by simp [create, h], by simp [create, h, managedAtProvider]⟩

/-- Witness for the amended claim C4 at a concrete resource and succeeding
client. -/
theorem create_success_returns_empty_result_witness :
    registerOkClient.registerInstances cr0.spec.forProvider.instanceID
        cr0.spec.forProvider.elbName = .ok { instances := [{ instanceId := "i-1" }] } ∧
    ((create registerOkClient 0 (.elbAttachment cr0)).2.1 = ({} : ExternalCreation) ∧
      (create registerOkClient 0 (.elbAttachment cr0)).2.2 = none ∧
      managedAtProvider (create registerOkClient 0 (.elbAttachment cr0)).1
        = cr0.status.atProvider) :=
  ⟨rfl, create_success_returns_empty_result registerOkClient 0 cr0
    { instances := [{ instanceId := "i-1" }] } rfl⟩

/-- Counterexample for claim C5: handed a wrong-typed input, Update returns
a nil error instead of failing with the invalid-input error. -/
theorem update_wrong_type_no_error_cex :
    (update (Managed.other "wrong")).2.2 = none ∧
    (update (Managed.other "wrong")).1 = Managed.other "wrong" :=
  ⟨rfl, rfl⟩

/-- Claim C5 amended: for every wrong-typed input, Connect, Observe, Create
and Delete fail with the invalid-input error and leave the input unchanged
with no condition set and no external call, while Update returns the zero
update result and a nil error, also leaving the input unchanged. -/
theorem wrong_type_rejected_except_update (conn : Connector) (p : GoError → Bool)
    (client : ELBClient) (now : Nat) (s : String) :
    connect conn (.other s) = (none, some (.base errUnexpectedObject)) ∧
    observe p client now (.other s) = (.other s, {}, some (.base errUnexpectedObject)) ∧
    create client now (.other s) = (.other s, {}, some (.base errUnexpectedObject)) ∧
    delete p client now (.other s) = (.other s, some (.base errUnexpectedObject)) ∧
    update (.other s) = (.other s, {}, none) :=
  ⟨rfl, rfl, rfl, rfl, rfl⟩

/-- Claim C7: for a group-policy-attachment resource desiring group
"some group" and policy ARN "some arn", when the list call returns an
attached-policy list containing that ARN, Observe reports exists and up to
date with a nil error, sets the Available condition and records "some arn"
as the observed-state identity. -/
theorem iam_observe_scenario_a (client : GroupPolicyAttachmentClient) (now : Nat)
    (cr : IAMGroupPolicyAttachment) (out : ListAttachedGroupPoliciesOutput)
    (hg : cr.spec.groupName = some "some group")
    (ha : cr.spec.policyARN = some "some arn")
    (hl : client.listAttachedGroupPolicies "some group" = .ok out)
    (hm : out.attachedPolicies.contains "some arn" = true) :
    ∃ cr', iamObserve client now cr =
        (cr', { resourceExists := true, resourceUpToDate := true }, none) ∧
      cr'.status.attachedPolicyARN = "some arn" ∧
      cr'.status.conditions.any (fun c => c.ctype == "Available") = true := by
  refine ⟨{ cr with status :=
    { conditions := setCondition cr.status.conditions (availableCond now),
      attachedPolicyARN := "some arn" } }, ?_, rfl, ?_⟩
  · simp [iamObserve, hg, ha, strValue, hl]
    simpa using hm
  · have hs := setCondition_any_self cr.status.conditions (availableCond now)
    simpa [availableCond] using hs

/-- Witness for claim C7 at the concrete Scenario A resource and client. -/
theorem iam_observe_scenario_a_witness :
    scenarioACr.spec.groupName = some "some group" ∧
    scenarioACr.spec.policyARN = some "some arn" ∧
    scenarioAClient.listAttachedGroupPolicies "some group"
      = .ok { attachedPolicies := ["some arn"] } ∧
    (["some arn"].contains "some arn" = true) ∧
    (∃ cr', iamObserve scenarioAClient 0 scenarioACr =
        (cr', { resourceExists := true, resourceUpToDate := true }, none) ∧
      cr'.status.attachedPolicyARN = "some arn" ∧
      cr'.status.conditions.any (fun c => c.ctype == "Available") = true) :=
  ⟨rfl, rfl, rfl, by decide,
   iam_observe_scenario_a scenarioAClient 0 scenarioACr
     { attachedPolicies := ["some arn"] } rfl rfl rfl (by decide)⟩

/-- Claim C8: starting from conditions with distinct types, setting two
conditions of distinct types leaves the types distinct with exactly one
condition of each of the two types, the condition current for each type
being the one set, up to its lastTransitionTime; and setting a condition of
a type already present replaces the existing one in place, never appending,
with the lastTransitionTime taken over from the replaced condition exactly
when the status did not change. -/
theorem setCondition_replace_not_append (conds : List Condition) (c1 c2 : Condition)
    (hnd : (conds.map Condition.ctype).Nodup) (hne : c1.ctype ≠ c2.ctype) :
    ((setCondition (setCondition conds c1) c2).map Condition.ctype).Nodup ∧
    (setCondition (setCondition conds c1) c2).countP (fun e => e.ctype == c1.ctype) = 1 ∧
    (setCondition (setCondition conds c1) c2).countP (fun e => e.ctype == c2.ctype) = 1 ∧
    (∃ t, (setCondition (setCondition conds c1) c2).find? (fun e => e.ctype == c2.ctype)
        = some { c2 with lastTransitionTime := t }) ∧
    (∃ t, (setCondition (setCondition conds c1) c2).find? (fun e => e.ctype == c1.ctype)
        = some { c1 with lastTransitionTime := t }) ∧
    (∀ (cs : List Condition) (old c : Condition),
      cs.find? (fun e => e.ctype == c.ctype) = some old →
      (setCondition cs c).length = cs.length ∧
      (setCondition cs c).find? (fun e => e.ctype == c.ctype) =
        some (if old.cstatus = c.cstatus
              then { c with lastTransitionTime := old.lastTransitionTime } else c)) := by
  have hnd1 : ((setCondition conds c1).map Condition.ctype).Nodup :=
    setCondition_nodup conds c1 hnd
  refine ⟨setCondition_nodup _ c2 hnd1, ?_, ?_, ?_, ?_, ?_⟩
  · rw [setCondition_countP_other _ c2 c1.ctype hne]
    exact setCondition_countP_self conds c1 hnd
  · exact setCondition_countP_self _ c2 hnd1
  · rw [setCondition_find_self]
    cases hf : (setCondition conds c1).find? (fun e => e.ctype == c2.ctype) with
    | none => exact ⟨c2.lastTransitionTime, rfl⟩
    | some old =>
      unfold mergeCondition
      by_cases hst : old.cstatus = c2.cstatus
      · exact ⟨old.lastTransitionTime, by simp [hst]⟩
      · exact ⟨c2.lastTransitionTime, by simp [hst]⟩
  · rw [setCondition_find_other _ c2 c1.ctype hne, setCondition_find_self]
    cases hf : conds.find? (fun e => e.ctype == c1.ctype) with
    | none => exact ⟨c1.lastTransitionTime, rfl⟩
    | some old =>
      unfold mergeCondition
      by_cases hst : old.cstatus = c1.cstatus
      · exact ⟨old.lastTransitionTime, by simp [hst]⟩
      · exact ⟨c1.lastTransitionTime, by simp [hst]⟩
  · intro cs old c hfind
    have hmem := List.mem_of_find?_eq_some hfind
    have hp : (old.ctype == c.ctype) = true := by
      have hq := List.find?_some hfind
      simpa using hq
    have hany : cs.any (fun e => e.ctype == c.ctype) = true :=
      List.any_eq_true.mpr ⟨old, hmem, hp⟩
    refine ⟨setCondition_length_of_any cs c hany, ?_⟩
    rw [setCondition_find_self, hfind]
    unfold mergeCondition
    rfl

/-- Witness for claim C8 at concrete conditions of distinct types. -/
theorem setCondition_replace_not_append_witness :
    (([] : List Condition).map Condition.ctype).Nodup ∧
    (creatingCond 0).ctype ≠ (availableCond 1).ctype ∧
    ((setCondition (setCondition [] (creatingCond 0)) (availableCond 1)).map
      Condition.ctype).Nodup :=
  ⟨by simp, by decide,
   (setCondition_replace_not_append [] (creatingCond 0) (availableCond 1)
     (by simp) (by decide)).1⟩

/-- Counterexample for claim C6: at a concrete connector whose provider
fetch succeeds in ambient-identity mode, so none of the three listed
failure causes applies, Connect still returns an error because the
new-client function fails, refuting the exactly-when enumeration. -/
theorem connect_extra_failure_cause_cex :
    (connect clientFailConnector (.elbAttachment cr0)).2 ≠ none ∧
    clientFailConnector.kube.getProvider cr0.spec.providerRef = .ok ambientProvider ∧
    boolValue ambientProvider.useServiceAccount = true :=
  ⟨by decide, rfl, rfl⟩

/-- Claim C6 amended: for every ELBAttachment, Connect fails exactly when
the provider fetch fails, or the provider is not in ambient-identity mode
and carries no credential secret reference, or the credential secret fetch
fails, or the client construction function fails; and when it does not
fail, the returned handle holds the client built from the provider region
and either empty credentials in ambient mode or the referenced secret
bytes. -/
theorem connect_failure_characterization (c : Connector) (cr : ELBAttachment) :
    ((connect c (.elbAttachment cr)).2 ≠ none ↔
      ((∃ e, c.kube.getProvider cr.spec.providerRef = .error e) ∨
       (∃ p, c.kube.getProvider cr.spec.providerRef = .ok p ∧
         boolValue p.useServiceAccount = false ∧ p.credentialsSecretRef = none) ∨
       (∃ p ref e, c.kube.getProvider cr.spec.providerRef = .ok p ∧
         boolValue p.useServiceAccount = false ∧ p.credentialsSecretRef = some ref ∧
         c.kube.getSecret ref.ns ref.name = .error e) ∨
       (∃ p, c.kube.getProvider cr.spec.providerRef = .ok p ∧
         boolValue p.useServiceAccount = true ∧
         (c.newClientFn "" p.region .usePodServiceAccount).2 ≠ none) ∨
       (∃ p ref s, c.kube.getProvider cr.spec.providerRef = .ok p ∧
         boolValue p.useServiceAccount = false ∧ p.credentialsSecretRef = some ref ∧
         c.kube.getSecret ref.ns ref.name = .ok s ∧
         (c.newClientFn (lookupD s.data ref.key) p.region .useProviderSecret).2 ≠ none))) ∧
    ((connect c (.elbAttachment cr)).2 = none →
      ∃ p, c.kube.getProvider cr.spec.providerRef = .ok p ∧
        ((boolValue p.useServiceAccount = true ∧
          connect c (.elbAttachment cr) =
            (some { client := (c.newClientFn "" p.region .usePodServiceAccount).1 }, none)) ∨
         (∃ ref s, boolValue p.useServiceAccount = false ∧
           p.credentialsSecretRef = some ref ∧
           c.kube.getSecret ref.ns ref.name = .ok s ∧
           connect c (.elbAttachment cr) =
             (some { client := (c.newClientFn (lookupD s.data ref.key) p.region
               .useProviderSecret).1 }, none)))) := by
  cases hp : c.kube.getProvider cr.spec.providerRef with
  | error e =>
    constructor
    · simp [connect, hp]
    · simp [connect, hp]
  | ok p =>
    cases hsa : boolValue p.useServiceAccount with
    | true =>
      constructor
      · simp [connect, hp, hsa, wrapErr_eq_none_iff]
      · simp [connect, hp, hsa, wrapErr_eq_none_iff]
    | false =>
      cases href : p.credentialsSecretRef with
      | none =>
        constructor
        · simp [connect, hp, hsa, href]
        · simp [connect, hp, hsa, href]
      | some ref =>
        cases hs : c.kube.getSecret ref.ns ref.name with
        | error e2 =>
          constructor
          · simp [connect, hp, hsa, href, hs]
          · simp [connect, hp, hsa, href, hs]
        | ok s =>
          constructor
          · simp [connect, hp, hsa, href, hs, wrapErr_eq_none_iff]
          · simp [connect, hp, hsa, href, hs, wrapErr_eq_none_iff]

/-- Witness for the amended claim C6 at a concrete connector whose provider
fetch fails. -/
theorem connect_failure_characterization_witness :
    (connect providerFailConnector (.elbAttachment cr0)).2 ≠ none :=
  (connect_failure_characterization providerFailConnector cr0).1.mpr
    (Or.inl ⟨GoError.base "boom", rfl⟩)

end ProviderAws
